import Mathlib

/-!
Verification of the storage-service response types of
`state-sync/storage-service/types/src/responses.rs`.

The Rust code is shallowly embedded: `u64` values are `Nat`s in `[0, 2^64)`,
Rust `Result<T, Error>` is `Except Error T`, Rust `Option` is `Option`, and
the checked `u64` arithmetic from `num_traits::PrimInt` is modelled by
explicit bound checks at `2^64 - 1`.  Parts of the repository that are not in
the sources under verification (the request descriptor types, the `bcs`
codec and the `aptos_compression` codec) are modelled from the spec; each
such definition carries a doc comment saying so.
-/

set_option autoImplicit false

/-- The number of values of `u64`; `u64` arithmetic wraps modulo this. -/
def U64LIMIT : Nat := 2 ^ 64

/-- The largest `u64` value (`u64::MAX`). -/
def U64MAX : Nat := 2 ^ 64 - 1

/-- `u64::checked_add`: `none` exactly when the mathematical sum exceeds `u64::MAX`. -/
def u64_checked_add (a b : Nat) : Option Nat :=
  if a + b ≤ U64MAX then some (a + b) else none

/-- `u64::checked_sub`: `none` exactly when the subtraction would underflow. -/
def u64_checked_sub (a b : Nat) : Option Nat :=
  if b ≤ a then some (a - b) else none

/-- Wrapping `u64` addition (release-mode Rust `+` on `u64`). -/
def u64_wrapping_add (a b : Nat) : Nat :=
  (a + b) % U64LIMIT

/-- The version delta tolerated for optimistic fetches
(`OPTIMISTIC_FETCH_VERSION_DELTA` in `responses.rs`). -/
def OPTIMISTIC_FETCH_VERSION_DELTA : Nat := 25000

/-- The error type of `responses.rs` (`enum Error`). -/
inductive Error where
  | DegenerateRangeError
  | UnexpectedErrorEncountered (detail : String)
  | UnexpectedResponseError (detail : String)
  deriving DecidableEq, Repr

/-- `CompleteDataRange<T>` instantiated at the `u64`-like types (`Version`,
`Epoch`) it is used with: a contiguous inclusive interval `[lowest, highest]`. -/
structure CompleteDataRange where
  lowest : Nat
  highest : Nat
  deriving DecidableEq, Repr

/-- `range_length_checked`: `highest - lowest + 1` with checked `u64`
arithmetic, subtracting before adding one so that `highest == lowest` does
not underflow. -/
def range_length_checked (lowest highest : Nat) : Except Error Nat :=
  match (u64_checked_sub highest lowest).bind (fun value => u64_checked_add value 1) with
  | some len => .ok len
  | none => .error .DegenerateRangeError

/-- `CompleteDataRange::new`: fails with `DegenerateRangeError` when
`lowest > highest` or when the length computation overflows. -/
def CompleteDataRange.new (lowest highest : Nat) : Except Error CompleteDataRange :=
  if lowest > highest then .error .DegenerateRangeError
  else match range_length_checked lowest highest with
    | .error _ => .error .DegenerateRangeError
    | .ok _ => .ok ⟨lowest, highest⟩

/-- `CompleteDataRange::from_len`: derives `highest = lowest + len - 1` with
checked arithmetic (subtracting first), then delegates to `new`. -/
def CompleteDataRange.from_len (lowest len : Nat) : Except Error CompleteDataRange :=
  match (u64_checked_sub len 1).bind (fun addend => u64_checked_add lowest addend) with
  | some highest => CompleteDataRange.new lowest highest
  | none => .error .DegenerateRangeError

/-- `CompleteDataRange::from_genesis`: `lowest = 0`, no validation. -/
def CompleteDataRange.from_genesis (highest : Nat) : CompleteDataRange :=
  ⟨0, highest⟩

/-- `CompleteDataRange::len`: recomputes `highest - lowest + 1` with the same
checked arithmetic used at construction. -/
def CompleteDataRange.len (r : CompleteDataRange) : Except Error Nat :=
  match (u64_checked_sub r.highest r.lowest).bind (fun value => u64_checked_add value 1) with
  | some len => .ok len
  | none => .error .DegenerateRangeError

/-- `CompleteDataRange::contains`: `lowest <= item <= highest`. -/
def CompleteDataRange.contains (r : CompleteDataRange) (item : Nat) : Bool :=
  decide (r.lowest ≤ item) && decide (item ≤ r.highest)

/-- `CompleteDataRange::superset_of`. -/
def CompleteDataRange.superset_of (self other : CompleteDataRange) : Bool :=
  decide (self.lowest ≤ other.lowest) && decide (other.highest ≤ self.highest)

/-- The derived `Serialize` of `CompleteDataRange`: the `(lowest, highest)`
field pair on the wire. -/
def CompleteDataRange.serialize (r : CompleteDataRange) : List Nat :=
  [r.lowest, r.highest]

/-- The custom `Deserialize` impl of `CompleteDataRange`: decode the
`(lowest, highest)` field pair, then re-validate through `Self::new`,
turning a validation failure into a deserialization error. -/
def CompleteDataRange.deserialize (bytes : List Nat) : Except Error CompleteDataRange :=
  match bytes with
  | [lowest, highest] => CompleteDataRange.new lowest highest
  | _ => .error (.UnexpectedErrorEncountered "malformed range encoding")

/-- Opaque proof-bearing payload (`aptos_types::epoch_change::EpochChangeProof`),
treated here as an opaque serializable blob as the spec directs. -/
structure EpochChangeProof where
  data : Nat
  deriving DecidableEq, Repr

/-- Opaque payload (`TransactionListWithProof`). -/
structure TransactionListWithProof where
  data : Nat
  deriving DecidableEq, Repr

/-- Opaque payload (`TransactionOutputListWithProof`). -/
structure TransactionOutputListWithProof where
  data : Nat
  deriving DecidableEq, Repr

/-- Opaque payload (`StateValueChunkWithProof`). -/
structure StateValueChunkWithProof where
  data : Nat
  deriving DecidableEq, Repr

/-- The inner `LedgerInfo` of a `LedgerInfoWithSignatures`; only its `version`
is read by this code. -/
structure LedgerInfo where
  version : Nat
  deriving DecidableEq, Repr

/-- `LedgerInfoWithSignatures`, opaque except for `ledger_info().version()`. -/
structure LedgerInfoWithSignatures where
  ledger_info : LedgerInfo
  deriving DecidableEq, Repr

/-- `ServerProtocolVersion` (`responses.rs`). -/
structure ServerProtocolVersion where
  protocol_version : Nat
  deriving DecidableEq, Repr

/-- `ProtocolMetadata`: the four per-response chunk-size limits. -/
structure ProtocolMetadata where
  max_epoch_chunk_size : Nat
  max_state_chunk_size : Nat
  max_transaction_chunk_size : Nat
  max_transaction_output_chunk_size : Nat
  deriving DecidableEq, Repr

/-- `DataSummary`: the optional synced frontier plus one optional complete
range per data category. -/
structure DataSummary where
  synced_ledger_info : Option LedgerInfoWithSignatures
  epoch_ending_ledger_infos : Option CompleteDataRange
  states : Option CompleteDataRange
  transactions : Option CompleteDataRange
  transaction_outputs : Option CompleteDataRange
  deriving DecidableEq, Repr

/-- `StorageServerSummary`: protocol metadata plus data summary. -/
structure StorageServerSummary where
  protocol_metadata : ProtocolMetadata
  data_summary : DataSummary
  deriving DecidableEq, Repr

/-- Modelled from the spec: the request descriptor for epoch-ending ledger
infos (`EpochEndingLedgerInfoRequest` of the crate's `requests` module, not
among the sources); carries the `start_epoch` and `expected_end_epoch` read
by `can_service`. -/
structure EpochEndingLedgerInfoRequest where
  start_epoch : Nat
  expected_end_epoch : Nat
  deriving DecidableEq, Repr

/-- Modelled from the spec: an optimistic-fetch request descriptor ("new data
since version V"); carries the `known_version` read by `can_service`. -/
structure NewDataRequest where
  known_version : Nat
  deriving DecidableEq, Repr

/-- Modelled from the spec: the state-values-with-proof request descriptor;
carries the `version` read by `can_service`. -/
structure StateValuesWithProofRequest where
  version : Nat
  deriving DecidableEq, Repr

/-- Modelled from the spec: a ranged request descriptor for transactions or
transaction outputs with proof; carries the `proof_version`, `start_version`
and `end_version` read by `can_service`. -/
structure RangeWithProofRequest where
  proof_version : Nat
  start_version : Nat
  end_version : Nat
  deriving DecidableEq, Repr

/-- Modelled from the spec: the closed set of request kinds
(`DataRequest` of the crate's `requests` module, not among the sources),
matching one-to-one the arms of `DataSummary::can_service`. -/
inductive DataRequest where
  | GetEpochEndingLedgerInfos (request : EpochEndingLedgerInfoRequest)
  | GetNewTransactionOutputsWithProof (request : NewDataRequest)
  | GetNewTransactionsWithProof (request : NewDataRequest)
  | GetNumberOfStatesAtVersion (version : Nat)
  | GetServerProtocolVersion
  | GetStateValuesWithProof (request : StateValuesWithProofRequest)
  | GetStorageServerSummary
  | GetTransactionOutputsWithProof (request : RangeWithProofRequest)
  | GetTransactionsWithProof (request : RangeWithProofRequest)
  | GetNewTransactionsOrOutputsWithProof (request : NewDataRequest)
  | GetTransactionsOrOutputsWithProof (request : RangeWithProofRequest)
  deriving DecidableEq, Repr

/-- Modelled from the spec: `StorageServiceRequest` wraps a `DataRequest`
together with the client's compression preference. -/
structure StorageServiceRequest where
  data_request : DataRequest
  use_compression : Bool
  deriving DecidableEq, Repr

/-- `DataSummary::can_service_optimistic_request`: the synced frontier plus
`OPTIMISTIC_FETCH_VERSION_DELTA` must strictly exceed the known version.  The
addition is the `u64` `+` of the source, hence wrapping. -/
def DataSummary.can_service_optimistic_request (ds : DataSummary) (known_version : Nat) : Bool :=
  (ds.synced_ledger_info.map
    (fun li => decide (u64_wrapping_add li.ledger_info.version OPTIMISTIC_FETCH_VERSION_DELTA > known_version))).getD
    false

/-- `DataSummary::can_service`: dispatch on the request kind, per the source. -/
def DataSummary.can_service (ds : DataSummary) (request : StorageServiceRequest) : Bool :=
  match request.data_request with
  | .GetServerProtocolVersion => true
  | .GetStorageServerSummary => true
  | .GetEpochEndingLedgerInfos request =>
    match CompleteDataRange.new request.start_epoch request.expected_end_epoch with
    | .error _ => false
    | .ok desired_range =>
      (ds.epoch_ending_ledger_infos.map
        (fun range => range.superset_of desired_range)).getD false
  | .GetNewTransactionOutputsWithProof request =>
    ds.can_service_optimistic_request request.known_version
  | .GetNewTransactionsWithProof request =>
    ds.can_service_optimistic_request request.known_version
  | .GetNumberOfStatesAtVersion version =>
    (ds.states.map (fun range => range.contains version)).getD false
  | .GetStateValuesWithProof request =>
    let proof_version := request.version
    let can_serve_states := (ds.states.map (fun range => range.contains request.version)).getD false
    let can_create_proof :=
      (ds.synced_ledger_info.map
        (fun li => decide (li.ledger_info.version ≥ proof_version))).getD false
    can_serve_states && can_create_proof
  | .GetTransactionOutputsWithProof request =>
    match CompleteDataRange.new request.start_version request.end_version with
    | .error _ => false
    | .ok desired_range =>
      let can_serve_outputs :=
        (ds.transaction_outputs.map (fun range => range.superset_of desired_range)).getD false
      let can_create_proof :=
        (ds.synced_ledger_info.map
          (fun li => decide (li.ledger_info.version ≥ request.proof_version))).getD false
      can_serve_outputs && can_create_proof
  | .GetTransactionsWithProof request =>
    match CompleteDataRange.new request.start_version request.end_version with
    | .error _ => false
    | .ok desired_range =>
      let can_serve_txns :=
        (ds.transactions.map (fun range => range.superset_of desired_range)).getD false
      let can_create_proof :=
        (ds.synced_ledger_info.map
          (fun li => decide (li.ledger_info.version ≥ request.proof_version))).getD false
      can_serve_txns && can_create_proof
  | .GetNewTransactionsOrOutputsWithProof request =>
    ds.can_service_optimistic_request request.known_version
  | .GetTransactionsOrOutputsWithProof request =>
    match CompleteDataRange.new request.start_version request.end_version with
    | .error _ => false
    | .ok desired_range =>
      let can_serve_txns :=
        (ds.transactions.map (fun range => range.superset_of desired_range)).getD false
      let can_serve_outputs :=
        (ds.transaction_outputs.map (fun range => range.superset_of desired_range)).getD false
      let can_create_proof :=
        (ds.synced_ledger_info.map
          (fun li => decide (li.ledger_info.version ≥ request.proof_version))).getD false
      can_serve_txns && can_serve_outputs && can_create_proof

/-- `ProtocolMetadata::can_service`: deems every request serviceable. -/
def ProtocolMetadata.can_service (_pm : ProtocolMetadata) (_request : StorageServiceRequest) : Bool :=
  true

/-- `StorageServerSummary::can_service`: protocol metadata AND data summary. -/
def StorageServerSummary.can_service (s : StorageServerSummary) (request : StorageServiceRequest) : Bool :=
  s.protocol_metadata.can_service request && s.data_summary.can_service request

/-- `TransactionOrOutputListWithProof`: optional transactions and optional outputs. -/
abbrev TransactionOrOutputListWithProof : Type :=
  Option TransactionListWithProof × Option TransactionOutputListWithProof

/-- `DataResponse`: the closed payload union of `responses.rs`. -/
inductive DataResponse where
  | EpochEndingLedgerInfos (proof : EpochChangeProof)
  | NewTransactionOutputsWithProof
      (payload : TransactionOutputListWithProof × LedgerInfoWithSignatures × Option Nat)
  | NewTransactionsWithProof
      (payload : TransactionListWithProof × LedgerInfoWithSignatures × Option Nat)
  | NumberOfStatesAtVersion (number : Nat)
  | ServerProtocolVersion (version : ServerProtocolVersion)
  | StateValueChunkWithProof (chunk : StateValueChunkWithProof)
  | StorageServerSummary (summary : StorageServerSummary)
  | TransactionOutputsWithProof (outputs : TransactionOutputListWithProof)
  | TransactionsWithProof (transactions : TransactionListWithProof)
  | NewTransactionsOrOutputsWithProof
      (payload : TransactionOrOutputListWithProof × LedgerInfoWithSignatures × Option Nat)
  | TransactionsOrOutputsWithProof (payload : TransactionOrOutputListWithProof)
  deriving DecidableEq, Repr

/-- `DataResponse::get_label`: the stable diagnostic label of each variant. -/
def DataResponse.get_label (d : DataResponse) : String :=
  match d with
  | .EpochEndingLedgerInfos _ => "epoch_ending_ledger_infos"
  | .NewTransactionOutputsWithProof _ => "new_transaction_outputs_with_proof"
  | .NewTransactionsWithProof _ => "new_transactions_with_proof"
  | .NumberOfStatesAtVersion _ => "number_of_states_at_version"
  | .ServerProtocolVersion _ => "server_protocol_version"
  | .StateValueChunkWithProof _ => "state_value_chunk_with_proof"
  | .StorageServerSummary _ => "storage_server_summary"
  | .TransactionOutputsWithProof _ => "transaction_outputs_with_proof"
  | .TransactionsWithProof _ => "transactions_with_proof"
  | .NewTransactionsOrOutputsWithProof _ => "new_transactions_or_outputs_with_proof"
  | .TransactionsOrOutputsWithProof _ => "transactions_or_outputs_with_proof"

/-- Modelled from the spec: the fixed compression suffix
(`COMPRESSION_SUFFIX_LABEL` of the crate's `lib.rs`, not among the sources). -/
def COMPRESSION_SUFFIX_LABEL : String := "_compressed"

/-- Modelled from the spec: the byte-budget ceiling handed to the compression
codec (`MAX_APPLICATION_MESSAGE_SIZE` of `aptos-config`, not among the
sources); its exact value is immaterial to the claims. -/
def MAX_APPLICATION_MESSAGE_SIZE : Nat := 64 * 1024 * 1024

/-- Encoding of an `Option<u64>` field inside the bcs model. -/
def encOptNat : Option Nat → List Nat
  | none => [0]
  | some n => [1, n]

/-- Encoding of an optional transaction list inside the bcs model. -/
def encOptTxns : Option TransactionListWithProof → List Nat
  | none => [0]
  | some t => [1, t.data]

/-- Encoding of an optional transaction output list inside the bcs model. -/
def encOptOutputs : Option TransactionOutputListWithProof → List Nat
  | none => [0]
  | some o => [1, o.data]

/-- Encoding of an optional ledger info inside the bcs model. -/
def encOptLedgerInfo : Option LedgerInfoWithSignatures → List Nat
  | none => [0]
  | some li => [1, li.ledger_info.version]

/-- Encoding of an optional complete data range inside the bcs model; a
present range is written as its derived `Serialize` field pair. -/
def encOptRange : Option CompleteDataRange → List Nat
  | none => [0]
  | some r => 1 :: CompleteDataRange.serialize r

/-- Encoding of a `StorageServerSummary` inside the bcs model: the four
chunk-size limits followed by the five optional data-summary fields. -/
def encStorageServerSummary (s : StorageServerSummary) : List Nat :=
  [s.protocol_metadata.max_epoch_chunk_size,
   s.protocol_metadata.max_state_chunk_size,
   s.protocol_metadata.max_transaction_chunk_size,
   s.protocol_metadata.max_transaction_output_chunk_size] ++
  encOptLedgerInfo s.data_summary.synced_ledger_info ++
  encOptRange s.data_summary.epoch_ending_ledger_infos ++
  encOptRange s.data_summary.states ++
  encOptRange s.data_summary.transactions ++
  encOptRange s.data_summary.transaction_outputs

/-- Modelled from the spec: `bcs::to_bytes` on `DataResponse` — a
deterministic, injective tag-prefixed encoding (the bcs crate is not among
the sources; the spec requires a deterministic codec whose variant tags
round-trip exactly). -/
def bcs_to_bytes : DataResponse → List Nat
  | .EpochEndingLedgerInfos p => 0 :: [p.data]
  | .NewTransactionOutputsWithProof (o, li, v) =>
    1 :: o.data :: li.ledger_info.version :: encOptNat v
  | .NewTransactionsWithProof (t, li, v) =>
    2 :: t.data :: li.ledger_info.version :: encOptNat v
  | .NumberOfStatesAtVersion n => 3 :: [n]
  | .ServerProtocolVersion v => 4 :: [v.protocol_version]
  | .StateValueChunkWithProof c => 5 :: [c.data]
  | .StorageServerSummary s => 6 :: encStorageServerSummary s
  | .TransactionOutputsWithProof o => 7 :: [o.data]
  | .TransactionsWithProof t => 8 :: [t.data]
  | .NewTransactionsOrOutputsWithProof ((t, o), li, v) =>
    9 :: (encOptTxns t ++ encOptOutputs o ++ [li.ledger_info.version] ++ encOptNat v)
  | .TransactionsOrOutputsWithProof (t, o) =>
    10 :: (encOptTxns t ++ encOptOutputs o)

/-- Decoder for an `Option<u64>` field, returning the rest of the input. -/
def decOptNat : List Nat → Option (Option Nat × List Nat)
  | 0 :: rest => some (none, rest)
  | 1 :: n :: rest => some (some n, rest)
  | _ => none

/-- Decoder for an optional transaction list. -/
def decOptTxns : List Nat → Option (Option TransactionListWithProof × List Nat)
  | 0 :: rest => some (none, rest)
  | 1 :: n :: rest => some (some ⟨n⟩, rest)
  | _ => none

/-- Decoder for an optional transaction output list. -/
def decOptOutputs : List Nat → Option (Option TransactionOutputListWithProof × List Nat)
  | 0 :: rest => some (none, rest)
  | 1 :: n :: rest => some (some ⟨n⟩, rest)
  | _ => none

/-- Decoder for an optional ledger info. -/
def decOptLedgerInfo : List Nat → Option (Option LedgerInfoWithSignatures × List Nat)
  | 0 :: rest => some (none, rest)
  | 1 :: n :: rest => some (some ⟨⟨n⟩⟩, rest)
  | _ => none

/-- Decoder for an optional complete data range.  A present range goes
through the validating custom `Deserialize` of `CompleteDataRange`, so an
invalid `(lowest, highest)` pair makes decoding fail. -/
def decOptRange : List Nat → Option (Option CompleteDataRange × List Nat)
  | 0 :: rest => some (none, rest)
  | 1 :: l :: h :: rest =>
    match CompleteDataRange.new l h with
    | .ok r => some (some r, rest)
    | .error _ => none
  | _ => none

/-- Decoder for a `StorageServerSummary` body. -/
def decStorageServerSummary (bytes : List Nat) : Option (StorageServerSummary × List Nat) :=
  match bytes with
  | a :: b :: c :: d :: rest =>
    (decOptLedgerInfo rest).bind fun (li, r1) =>
    (decOptRange r1).bind fun (epochs, r2) =>
    (decOptRange r2).bind fun (states, r3) =>
    (decOptRange r3).bind fun (txns, r4) =>
    (decOptRange r4).bind fun (outputs, r5) =>
    some (⟨⟨a, b, c, d⟩, ⟨li, epochs, states, txns, outputs⟩⟩, r5)
  | _ => none

/-- Decoder for a full `DataResponse` encoding; `none` on any malformed or
invalid input. -/
def decDataResponse : List Nat → Option DataResponse
  | 0 :: [d] => some (.EpochEndingLedgerInfos ⟨d⟩)
  | 1 :: o :: v :: rest =>
    (decOptNat rest).bind fun (x, r) =>
      if r.isEmpty then some (.NewTransactionOutputsWithProof (⟨o⟩, ⟨⟨v⟩⟩, x)) else none
  | 2 :: t :: v :: rest =>
    (decOptNat rest).bind fun (x, r) =>
      if r.isEmpty then some (.NewTransactionsWithProof (⟨t⟩, ⟨⟨v⟩⟩, x)) else none
  | 3 :: [n] => some (.NumberOfStatesAtVersion n)
  | 4 :: [v] => some (.ServerProtocolVersion ⟨v⟩)
  | 5 :: [c] => some (.StateValueChunkWithProof ⟨c⟩)
  | 6 :: rest =>
    (decStorageServerSummary rest).bind fun (s, r) =>
      if r.isEmpty then some (.StorageServerSummary s) else none
  | 7 :: [o] => some (.TransactionOutputsWithProof ⟨o⟩)
  | 8 :: [t] => some (.TransactionsWithProof ⟨t⟩)
  | 9 :: rest =>
    (decOptTxns rest).bind fun (t, r1) =>
    (decOptOutputs r1).bind fun (o, r2) =>
    match r2 with
    | v :: r3 =>
      (decOptNat r3).bind fun (x, r4) =>
        if r4.isEmpty then some (.NewTransactionsOrOutputsWithProof ((t, o), ⟨⟨v⟩⟩, x)) else none
    | [] => none
  | 10 :: rest =>
    (decOptTxns rest).bind fun (t, r1) =>
    (decOptOutputs r1).bind fun (o, r2) =>
      if r2.isEmpty then some (.TransactionsOrOutputsWithProof (t, o)) else none
  | _ => none

/-- Modelled from the spec: `bcs::from_bytes::<DataResponse>` — the partial
inverse of `bcs_to_bytes`, with the map of a deserialization failure into
`UnexpectedErrorEncountered` taken from the source of `get_data_response`. -/
def bcs_from_bytes (bytes : List Nat) : Except Error DataResponse :=
  match decDataResponse bytes with
  | some d => .ok d
  | none => .error (.UnexpectedErrorEncountered "bcs deserialization failure")

/-- Modelled from the spec: `aptos_compression::compress` — a byte-budget
bounded, losslessly invertible codec (the compression crate is not among the
sources; the spec's codec contract requires `decompress` to invert
`compress` within the byte budget, which the identity codec realizes). -/
def aptos_compression_compress (raw : List Nat) : Except Error (List Nat) :=
  if raw.length ≤ MAX_APPLICATION_MESSAGE_SIZE then .ok raw
  else .error (.UnexpectedErrorEncountered "compression failure")

/-- Modelled from the spec: `aptos_compression::decompress`, inverse of the
compression model above, also byte-budget bounded. -/
def aptos_compression_decompress (blob : List Nat) : Except Error (List Nat) :=
  if blob.length ≤ MAX_APPLICATION_MESSAGE_SIZE then .ok blob
  else .error (.UnexpectedErrorEncountered "decompression failure")

/-- `StorageServiceResponse`: the response envelope — compressed bytes with a
stored label, or a raw payload. -/
inductive StorageServiceResponse where
  | CompressedResponse (label : String) (data : List Nat)
  | RawResponse (data_response : DataResponse)
  deriving DecidableEq, Repr

/-- `StorageServiceResponse::new`: wrap raw, or serialize + compress and
store the suffixed label. -/
def StorageServiceResponse.new (data_response : DataResponse) (perform_compression : Bool) :
    Except Error StorageServiceResponse :=
  if perform_compression then
    match aptos_compression_compress (bcs_to_bytes data_response) with
    | .error e => .error e
    | .ok compressed_data =>
      .ok (.CompressedResponse (data_response.get_label ++ COMPRESSION_SUFFIX_LABEL) compressed_data)
  else
    .ok (.RawResponse data_response)

/-- `StorageServiceResponse::get_data_response`: decompress + deserialize a
compressed envelope, or clone the raw payload. -/
def StorageServiceResponse.get_data_response (r : StorageServiceResponse) :
    Except Error DataResponse :=
  match r with
  | .CompressedResponse _ compressed_data =>
    match aptos_compression_decompress compressed_data with
    | .error e => .error e
    | .ok raw_data => bcs_from_bytes raw_data
  | .RawResponse data_response => .ok data_response

/-- `StorageServiceResponse::get_label`. -/
def StorageServiceResponse.get_label (r : StorageServiceResponse) : String :=
  match r with
  | .CompressedResponse label _ => label
  | .RawResponse data_response => data_response.get_label

/-- `StorageServiceResponse::is_compressed`. -/
def StorageServiceResponse.is_compressed (r : StorageServiceResponse) : Bool :=
  match r with
  | .CompressedResponse _ _ => true
  | .RawResponse _ => false

/-- `TryFrom<StorageServiceResponse> for StateValueChunkWithProof`. -/
def StateValueChunkWithProof.try_from (response : StorageServiceResponse) :
    Except Error StateValueChunkWithProof :=
  match response.get_data_response with
  | .error e => .error e
  | .ok data_response =>
    match data_response with
    | .StateValueChunkWithProof inner => .ok inner
    | _ => .error (.UnexpectedResponseError
        ("expected state_value_chunk_with_proof, found " ++ data_response.get_label))

/-- `TryFrom<StorageServiceResponse> for EpochChangeProof`. -/
def EpochChangeProof.try_from (response : StorageServiceResponse) :
    Except Error EpochChangeProof :=
  match response.get_data_response with
  | .error e => .error e
  | .ok data_response =>
    match data_response with
    | .EpochEndingLedgerInfos inner => .ok inner
    | _ => .error (.UnexpectedResponseError
        ("expected epoch_ending_ledger_infos, found " ++ data_response.get_label))

/-- `TryFrom<StorageServiceResponse>` for the new-transaction-outputs triple. -/
def try_from_new_transaction_outputs (response : StorageServiceResponse) :
    Except Error (TransactionOutputListWithProof × LedgerInfoWithSignatures × Option Nat) :=
  match response.get_data_response with
  | .error e => .error e
  | .ok data_response =>
    match data_response with
    | .NewTransactionOutputsWithProof inner => .ok inner
    | _ => .error (.UnexpectedResponseError
        ("expected new_transaction_outputs_with_proof, found " ++ data_response.get_label))

/-- `TryFrom<StorageServiceResponse>` for the new-transactions triple. -/
def try_from_new_transactions (response : StorageServiceResponse) :
    Except Error (TransactionListWithProof × LedgerInfoWithSignatures × Option Nat) :=
  match response.get_data_response with
  | .error e => .error e
  | .ok data_response =>
    match data_response with
    | .NewTransactionsWithProof inner => .ok inner
    | _ => .error (.UnexpectedResponseError
        ("expected new_transactions_with_proof, found " ++ data_response.get_label))

/-- `TryFrom<StorageServiceResponse> for u64` (number of states). -/
def try_from_number_of_states (response : StorageServiceResponse) : Except Error Nat :=
  match response.get_data_response with
  | .error e => .error e
  | .ok data_response =>
    match data_response with
    | .NumberOfStatesAtVersion inner => .ok inner
    | _ => .error (.UnexpectedResponseError
        ("expected number_of_states_at_version, found " ++ data_response.get_label))

/-- `TryFrom<StorageServiceResponse> for ServerProtocolVersion`. -/
def ServerProtocolVersion.try_from (response : StorageServiceResponse) :
    Except Error ServerProtocolVersion :=
  match response.get_data_response with
  | .error e => .error e
  | .ok data_response =>
    match data_response with
    | .ServerProtocolVersion inner => .ok inner
    | _ => .error (.UnexpectedResponseError
        ("expected server_protocol_version, found " ++ data_response.get_label))

/-- `TryFrom<StorageServiceResponse> for StorageServerSummary`. -/
def StorageServerSummary.try_from (response : StorageServiceResponse) :
    Except Error StorageServerSummary :=
  match response.get_data_response with
  | .error e => .error e
  | .ok data_response =>
    match data_response with
    | .StorageServerSummary inner => .ok inner
    | _ => .error (.UnexpectedResponseError
        ("expected storage_server_summary, found " ++ data_response.get_label))

/-- `TryFrom<StorageServiceResponse> for TransactionOutputListWithProof`. -/
def TransactionOutputListWithProof.try_from (response : StorageServiceResponse) :
    Except Error TransactionOutputListWithProof :=
  match response.get_data_response with
  | .error e => .error e
  | .ok data_response =>
    match data_response with
    | .TransactionOutputsWithProof inner => .ok inner
    | _ => .error (.UnexpectedResponseError
        ("expected transaction_outputs_with_proof, found " ++ data_response.get_label))

/-- `TryFrom<StorageServiceResponse> for TransactionListWithProof`. -/
def TransactionListWithProof.try_from (response : StorageServiceResponse) :
    Except Error TransactionListWithProof :=
  match response.get_data_response with
  | .error e => .error e
  | .ok data_response =>
    match data_response with
    | .TransactionsWithProof inner => .ok inner
    | _ => .error (.UnexpectedResponseError
        ("expected transactions_with_proof, found " ++ data_response.get_label))

/-- `TryFrom<StorageServiceResponse>` for the new-transactions-or-outputs triple. -/
def try_from_new_transactions_or_outputs (response : StorageServiceResponse) :
    Except Error (TransactionOrOutputListWithProof × LedgerInfoWithSignatures × Option Nat) :=
  match response.get_data_response with
  | .error e => .error e
  | .ok data_response =>
    match data_response with
    | .NewTransactionsOrOutputsWithProof inner => .ok inner
    | _ => .error (.UnexpectedResponseError
        ("expected new_transactions_or_outputs_with_proof, found " ++ data_response.get_label))

/-- `TryFrom<StorageServiceResponse> for TransactionOrOutputListWithProof`. -/
def try_from_transactions_or_outputs (response : StorageServiceResponse) :
    Except Error TransactionOrOutputListWithProof :=
  match response.get_data_response with
  | .error e => .error e
  | .ok data_response =>
    match data_response with
    | .TransactionsOrOutputsWithProof inner => .ok inner
    | _ => .error (.UnexpectedResponseError
        ("expected transactions_or_outputs_with_proof, found " ++ data_response.get_label))

/-- The `CompleteDataRange` type invariant: `lowest <= highest` and the
length `highest - lowest + 1` is representable in `u64`. -/
def validRange (r : CompleteDataRange) : Bool :=
  decide (r.lowest ≤ r.highest) && decide (r.highest - r.lowest + 1 ≤ U64MAX)

/-- Validity of an optional range field. -/
def rangesValid : Option CompleteDataRange → Bool
  | none => true
  | some r => validRange r

/-- Validity of every `CompleteDataRange` embedded in a payload: only the
`StorageServerSummary` variant embeds ranges. -/
def DataResponse.ranges_valid : DataResponse → Bool
  | .StorageServerSummary s =>
    rangesValid s.data_summary.epoch_ending_ledger_infos &&
    rangesValid s.data_summary.states &&
    rangesValid s.data_summary.transactions &&
    rangesValid s.data_summary.transaction_outputs
  | _ => true

lemma range_new_self (r : CompleteDataRange) (h : validRange r = true) :
    CompleteDataRange.new r.lowest r.highest = .ok r := by
  simp only [validRange, Bool.and_eq_true, decide_eq_true_eq] at h
  obtain ⟨h1, h2⟩ := h
  have h3 : ¬ (r.lowest > r.highest) := by omega
  simp [CompleteDataRange.new, range_length_checked, u64_checked_sub, u64_checked_add, h1, h2, h3]

lemma decOptNat_enc (o : Option Nat) (rest : List Nat) :
    decOptNat (encOptNat o ++ rest) = some (o, rest) := by
  cases o <;> rfl

lemma decOptTxns_enc (o : Option TransactionListWithProof) (rest : List Nat) :
    decOptTxns (encOptTxns o ++ rest) = some (o, rest) := by
  cases o <;> rfl

lemma decOptOutputs_enc (o : Option TransactionOutputListWithProof) (rest : List Nat) :
    decOptOutputs (encOptOutputs o ++ rest) = some (o, rest) := by
  cases o <;> rfl

lemma decOptLedgerInfo_enc (o : Option LedgerInfoWithSignatures) (rest : List Nat) :
    decOptLedgerInfo (encOptLedgerInfo o ++ rest) = some (o, rest) := by
  cases o <;> rfl

lemma decOptRange_enc (o : Option CompleteDataRange) (h : rangesValid o = true)
    (rest : List Nat) : decOptRange (encOptRange o ++ rest) = some (o, rest) := by
  cases o with
  | none => rfl
  | some r =>
    have hr : validRange r = true := h
    simp [encOptRange, CompleteDataRange.serialize, decOptRange, range_new_self r hr]

set_option maxHeartbeats 1000000 in
lemma decStorageServerSummary_enc (s : StorageServerSummary)
    (he : rangesValid s.data_summary.epoch_ending_ledger_infos = true)
    (hs : rangesValid s.data_summary.states = true)
    (ht : rangesValid s.data_summary.transactions = true)
    (ho : rangesValid s.data_summary.transaction_outputs = true)
    (rest : List Nat) :
    decStorageServerSummary (encStorageServerSummary s ++ rest) = some (s, rest) := by
  simp only [encStorageServerSummary, List.cons_append, List.nil_append, List.append_assoc]
  simp only [decStorageServerSummary, decOptLedgerInfo_enc, decOptRange_enc _ he,
    decOptRange_enc _ hs, decOptRange_enc _ ht, decOptRange_enc _ ho, Option.some_bind]

set_option maxHeartbeats 1000000 in
lemma bcs_roundtrip (v : DataResponse) (h : v.ranges_valid = true) :
    bcs_from_bytes (bcs_to_bytes v) = .ok v := by
  cases v with
  | EpochEndingLedgerInfos p => rfl
  | NewTransactionOutputsWithProof payload =>
    obtain ⟨o, li, x⟩ := payload
    cases x <;> rfl
  | NewTransactionsWithProof payload =>
    obtain ⟨t, li, x⟩ := payload
    cases x <;> rfl
  | NumberOfStatesAtVersion n => rfl
  | ServerProtocolVersion v => rfl
  | StateValueChunkWithProof c => rfl
  | StorageServerSummary s =>
    simp only [DataResponse.ranges_valid, Bool.and_eq_true] at h
    obtain ⟨⟨⟨he, hs⟩, ht⟩, ho⟩ := h
    have henc := decStorageServerSummary_enc s he hs ht ho []
    rw [List.append_nil] at henc
    simp [bcs_from_bytes, bcs_to_bytes, decDataResponse, henc]
  | TransactionOutputsWithProof o => rfl
  | TransactionsWithProof t => rfl
  | NewTransactionsOrOutputsWithProof payload =>
    obtain ⟨⟨t, o⟩, li, x⟩ := payload
    cases t <;> cases o <;> cases x <;> rfl
  | TransactionsOrOutputsWithProof payload =>
    obtain ⟨t, o⟩ := payload
    cases t <;> cases o <;> rfl

lemma new_unfold (l h : Nat) : CompleteDataRange.new l h =
    if l ≤ h ∧ h - l + 1 ≤ U64MAX then .ok ⟨l, h⟩ else .error .DegenerateRangeError := by
  by_cases hle : l ≤ h
  · by_cases hlen : h - l + 1 ≤ U64MAX
    · have hgt : ¬ (l > h) := by omega
      simp [CompleteDataRange.new, range_length_checked, u64_checked_sub, u64_checked_add,
        hle, hlen, hgt]
    · have hgt : ¬ (l > h) := by omega
      simp [CompleteDataRange.new, range_length_checked, u64_checked_sub, u64_checked_add,
        hle, hlen, hgt]
  · have hgt : l > h := by omega
    simp [CompleteDataRange.new, hle, hgt]

lemma len_mk (l h : Nat) : (CompleteDataRange.mk l h).len =
    if l ≤ h ∧ h - l + 1 ≤ U64MAX then .ok (h - l + 1) else .error .DegenerateRangeError := by
  by_cases hle : l ≤ h
  · by_cases hlen : h - l + 1 ≤ U64MAX
    · simp [CompleteDataRange.len, u64_checked_sub, u64_checked_add, hle, hlen]
    · simp [CompleteDataRange.len, u64_checked_sub, u64_checked_add, hle, hlen]
  · simp [CompleteDataRange.len, u64_checked_sub, u64_checked_add, hle]

lemma new_ok_invariant (l h : Nat) (r : CompleteDataRange)
    (hr : CompleteDataRange.new l h = .ok r) :
    r = ⟨l, h⟩ ∧ l ≤ h ∧ h - l + 1 ≤ U64MAX := by
  rw [new_unfold] at hr
  by_cases hc : l ≤ h ∧ h - l + 1 ≤ U64MAX
  · rw [if_pos hc] at hr
    exact ⟨(Except.ok.injEq _ _).mp hr.symm ▸ rfl, hc⟩
  · rw [if_neg hc] at hr
    exact absurd hr (by simp)

/-- C6: `Range::new(lowest, highest)` succeeds iff `lowest <= highest` and
`highest - lowest + 1` is representable in `u64`; on success the result has
exactly those bounds and `len()` recomputes `highest - lowest + 1`; otherwise
it fails with `DegenerateRangeError`.  Boundaries: `new(5, 5)` succeeds with
length 1 and `new(0, u64::MAX)` fails because the length overflows. -/
theorem c6_range_new_characterization :
    (∀ lowest highest : Nat,
      (CompleteDataRange.new lowest highest = .ok ⟨lowest, highest⟩ ↔
        lowest ≤ highest ∧ highest - lowest + 1 ≤ U64MAX)
      ∧ (¬ (lowest ≤ highest ∧ highest - lowest + 1 ≤ U64MAX) →
          CompleteDataRange.new lowest highest = .error .DegenerateRangeError)
      ∧ (∀ r, CompleteDataRange.new lowest highest = .ok r →
          r.lowest = lowest ∧ r.highest = highest ∧
          r.len = .ok (highest - lowest + 1)))
    ∧ CompleteDataRange.new 5 5 = .ok ⟨5, 5⟩
    ∧ (CompleteDataRange.mk 5 5).len = .ok 1
    ∧ CompleteDataRange.new 0 U64MAX = .error .DegenerateRangeError := by
  refine ⟨fun lowest highest => ⟨?_, ?_, ?_⟩, by rw [new_unfold]; norm_num [U64MAX],
    by rw [len_mk]; norm_num [U64MAX], by rw [new_unfold]; norm_num [U64MAX]⟩
  · rw [new_unfold]
    by_cases hc : lowest ≤ highest ∧ highest - lowest + 1 ≤ U64MAX
    · simp [hc]
    · simp [hc]
  · intro hc
    rw [new_unfold, if_neg hc]
  · intro r hr
    obtain ⟨rfl, hc⟩ := new_ok_invariant _ _ _ hr
    refine ⟨rfl, rfl, ?_⟩
    rw [len_mk, if_pos hc]

/-- C6 witness: the success branch instantiated at the concrete boundary
input `(5, 5)`. -/
theorem c6_range_new_characterization_witness :
    CompleteDataRange.new 5 5 = .ok ⟨5, 5⟩ ∧
    (CompleteDataRange.mk 5 5).lowest = 5 ∧ (CompleteDataRange.mk 5 5).highest = 5 ∧
    (CompleteDataRange.mk 5 5).len = .ok (5 - 5 + 1) :=
  ⟨by rw [new_unfold]; norm_num [U64MAX],
    ((c6_range_new_characterization.1 5 5).2.2 ⟨5, 5⟩
      (by rw [new_unfold]; norm_num [U64MAX]))⟩

/-- C7 counterexample: `from_genesis(u64::MAX)` silently constructs the range
`[0, u64::MAX]`, whose length is not representable, so `len()` fails — the
claimed type invariant does not survive this constructor. -/
theorem c7_from_genesis_counterexample :
    (CompleteDataRange.from_genesis U64MAX).len = .error .DegenerateRangeError ∧
    validRange (CompleteDataRange.from_genesis U64MAX) = false := by
  constructor
  · show (CompleteDataRange.mk 0 U64MAX).len = _
    rw [len_mk]
    norm_num [U64MAX]
  · simp [CompleteDataRange.from_genesis, validRange, U64MAX]

/-- C7 (amended): ranges built by `new` or `from_len` always satisfy the
invariant (`lowest <= highest` with representable length, so `len()`
succeeds); `from_genesis(highest)` always satisfies `lowest = 0 <= highest`,
and satisfies the full invariant exactly when `highest < u64::MAX` — at
`u64::MAX` it silently yields a range whose `len()` fails. -/
theorem c7_constructor_invariant_amended :
    (∀ (l h : Nat) (r : CompleteDataRange), CompleteDataRange.new l h = .ok r →
      validRange r = true ∧ r.lowest ≤ r.highest ∧ r.len = .ok (r.highest - r.lowest + 1))
    ∧ (∀ (l n : Nat) (r : CompleteDataRange), CompleteDataRange.from_len l n = .ok r →
      validRange r = true ∧ r.lowest ≤ r.highest ∧ r.len = .ok (r.highest - r.lowest + 1))
    ∧ (∀ h : Nat, (CompleteDataRange.from_genesis h).lowest = 0
        ∧ (CompleteDataRange.from_genesis h).highest = h
        ∧ (CompleteDataRange.from_genesis h).lowest ≤ (CompleteDataRange.from_genesis h).highest)
    ∧ (∀ h : Nat, h < U64MAX → (CompleteDataRange.from_genesis h).len = .ok (h + 1))
    ∧ (CompleteDataRange.from_genesis U64MAX).len = .error .DegenerateRangeError := by
  have hnew : ∀ (l h : Nat) (r : CompleteDataRange), CompleteDataRange.new l h = .ok r →
      validRange r = true ∧ r.lowest ≤ r.highest ∧ r.len = .ok (r.highest - r.lowest + 1) := by
    intro l h r hr
    obtain ⟨rfl, h1, h2⟩ := new_ok_invariant _ _ _ hr
    refine ⟨by simp [validRange, h1, h2], h1, ?_⟩
    rw [len_mk, if_pos ⟨h1, h2⟩]
  refine ⟨hnew, ?_, ?_, ?_, ?_⟩
  · intro l n r hr
    simp only [CompleteDataRange.from_len] at hr
    cases hopt : (u64_checked_sub n 1).bind (fun addend => u64_checked_add l addend) with
    | none => rw [hopt] at hr; exact absurd hr (by simp)
    | some highest => rw [hopt] at hr; exact hnew l highest r hr
  · intro h
    exact ⟨rfl, rfl, Nat.zero_le h⟩
  · intro h hlt
    show (CompleteDataRange.mk 0 h).len = _
    rw [len_mk, if_pos ⟨Nat.zero_le h, by omega⟩]
    norm_num
  · show (CompleteDataRange.mk 0 U64MAX).len = _
    rw [len_mk]
    norm_num [U64MAX]

/-- C7 witness: the `new`-branch and the sub-`u64::MAX` `from_genesis` branch
instantiated at concrete inputs. -/
theorem c7_constructor_invariant_amended_witness :
    (CompleteDataRange.new 2 5 = .ok ⟨2, 5⟩) ∧
    (validRange ⟨2, 5⟩ = true ∧ (CompleteDataRange.mk 2 5).lowest ≤ (CompleteDataRange.mk 2 5).highest ∧
      (CompleteDataRange.mk 2 5).len = .ok ((CompleteDataRange.mk 2 5).highest - (CompleteDataRange.mk 2 5).lowest + 1)) ∧
    (10 < U64MAX ∧ (CompleteDataRange.from_genesis 10).len = .ok (10 + 1)) :=
  ⟨by rw [new_unfold]; norm_num [U64MAX],
    c7_constructor_invariant_amended.1 2 5 ⟨2, 5⟩ (by rw [new_unfold]; norm_num [U64MAX]),
    by norm_num [U64MAX], c7_constructor_invariant_amended.2.2.2.1 10 (by norm_num [U64MAX])⟩

/-- C8: deserializing a `(lowest, highest)` wire pair re-validates the
invariant — it agrees exactly with `Range::new`, so it succeeds iff `new`
would and then yields that very range, and a pair with `lowest > highest`
fails with `DegenerateRangeError` instead of constructing silently. -/
theorem c8_deserialize_revalidates :
    (∀ lowest highest : Nat,
      CompleteDataRange.deserialize [lowest, highest] = CompleteDataRange.new lowest highest
      ∧ (∀ r : CompleteDataRange, CompleteDataRange.deserialize [lowest, highest] = .ok r →
          r.lowest = lowest ∧ r.highest = highest)
      ∧ (lowest > highest →
          CompleteDataRange.deserialize [lowest, highest] = .error .DegenerateRangeError))
    ∧ CompleteDataRange.deserialize (CompleteDataRange.serialize ⟨5, 3⟩) =
        .error .DegenerateRangeError := by
  refine ⟨fun lowest highest => ⟨rfl, ?_, ?_⟩, by rw [show CompleteDataRange.deserialize
    (CompleteDataRange.serialize ⟨5, 3⟩) = CompleteDataRange.new 5 3 from rfl, new_unfold]; norm_num⟩
  · intro r hr
    obtain ⟨rfl, -⟩ := new_ok_invariant _ _ _ hr
    exact ⟨rfl, rfl⟩
  · intro hgt
    show CompleteDataRange.new lowest highest = _
    rw [new_unfold, if_neg (by omega)]

/-- C8 witness: the degenerate wire pair `(5, 3)` fails to deserialize. -/
theorem c8_deserialize_revalidates_witness :
    5 > 3 ∧ CompleteDataRange.deserialize [5, 3] = .error .DegenerateRangeError :=
  ⟨by norm_num, (c8_deserialize_revalidates.1 5 3).2.2 (by norm_num)⟩

/-- C9: `superset_of` is exactly the bounds comparison
`self.lowest <= other.lowest && other.highest <= self.highest`; consequences:
`[10,20] ⊇ [12,18]`, `¬([10,20] ⊇ [5,25])`, and reflexivity. -/
theorem c9_superset_of :
    (∀ a b : CompleteDataRange,
      (a.superset_of b = true ↔ a.lowest ≤ b.lowest ∧ b.highest ≤ a.highest))
    ∧ (CompleteDataRange.mk 10 20).superset_of ⟨12, 18⟩ = true
    ∧ (CompleteDataRange.mk 10 20).superset_of ⟨5, 25⟩ = false
    ∧ (∀ a : CompleteDataRange, a.superset_of a = true) := by
  refine ⟨fun a b => ?_, by decide, by decide, fun a => ?_⟩
  · simp [CompleteDataRange.superset_of]
  · simp [CompleteDataRange.superset_of]

/-- C3: a `GetTransactionsWithProof` request is serviceable iff its range is
constructible as a valid `CompleteDataRange`, the held transactions range is
present and a superset of it, and a synced ledger info is present whose
version is at least the proof version.  In particular, with held transactions
`[0, 5000]` and frontier version 4000, the request `[0, 5000]` with proof
version 4500 is not serviceable even though the data range is covered. -/
theorem c3_can_service_transactions :
    (∀ (ds : DataSummary) (uc : Bool) (pv s e : Nat),
      ds.can_service ⟨.GetTransactionsWithProof ⟨pv, s, e⟩, uc⟩ = true ↔
        ((∃ dr, CompleteDataRange.new s e = .ok dr
            ∧ ∃ tr, ds.transactions = some tr ∧ tr.superset_of dr = true)
          ∧ (∃ li, ds.synced_ledger_info = some li ∧ li.ledger_info.version ≥ pv)))
    ∧ (DataSummary.mk (some ⟨⟨4000⟩⟩) none none (some ⟨0, 5000⟩) none).can_service
        ⟨.GetTransactionsWithProof ⟨4500, 0, 5000⟩, false⟩ = false := by
  refine ⟨fun ds uc pv s e => ?_, by decide⟩
  simp only [DataSummary.can_service]
  cases hnew : CompleteDataRange.new s e with
  | error err => simp [hnew]
  | ok dr =>
    cases htr : ds.transactions <;> cases hli : ds.synced_ledger_info <;>
      simp [hnew, htr, hli]

/-- C4 counterexample: with the synced frontier at version `u64::MAX` and
`known_version = u64::MAX`, the mathematical condition
`version + OPTIMISTIC_FETCH_VERSION_DELTA > known_version` of the claim
holds, yet the code's wrapping `u64` addition makes `can_service` return
`false` — so the claim's iff fails at this input. -/
theorem c4_optimistic_overflow_counterexample :
    (DataSummary.mk (some ⟨⟨U64MAX⟩⟩) none none none none).can_service
        ⟨.GetNewTransactionsWithProof ⟨U64MAX⟩, false⟩ = false
    ∧ U64MAX + OPTIMISTIC_FETCH_VERSION_DELTA > U64MAX := by
  constructor
  · simp [DataSummary.can_service, DataSummary.can_service_optimistic_request,
      u64_wrapping_add, U64MAX, U64LIMIT, OPTIMISTIC_FETCH_VERSION_DELTA]
  · simp [OPTIMISTIC_FETCH_VERSION_DELTA]

/-- C4 (amended): an optimistic-fetch request with `known_version` V is
serviceable iff a synced ledger info is present and its version plus
`OPTIMISTIC_FETCH_VERSION_DELTA`, computed with the source's wrapping `u64`
addition, strictly exceeds V (when the sum does not overflow `u64` this is
exactly `version + 25000 > V`); absent frontier means not serviceable; the
three optimistic request kinds agree; boundary at frontier version 1000:
`known_version = 25999` is serviceable, `known_version = 26000` is not. -/
theorem c4_optimistic_fetch_amended :
    (∀ (ds : DataSummary) (uc : Bool) (V : Nat),
      (ds.can_service ⟨.GetNewTransactionsWithProof ⟨V⟩, uc⟩ = true ↔
        ∃ li, ds.synced_ledger_info = some li ∧
          u64_wrapping_add li.ledger_info.version OPTIMISTIC_FETCH_VERSION_DELTA > V)
      ∧ ds.can_service ⟨.GetNewTransactionOutputsWithProof ⟨V⟩, uc⟩ =
          ds.can_service ⟨.GetNewTransactionsWithProof ⟨V⟩, uc⟩
      ∧ ds.can_service ⟨.GetNewTransactionsOrOutputsWithProof ⟨V⟩, uc⟩ =
          ds.can_service ⟨.GetNewTransactionsWithProof ⟨V⟩, uc⟩
      ∧ (ds.synced_ledger_info = none →
          ds.can_service ⟨.GetNewTransactionsWithProof ⟨V⟩, uc⟩ = false))
    ∧ (DataSummary.mk (some ⟨⟨1000⟩⟩) none none none none).can_service
        ⟨.GetNewTransactionsWithProof ⟨25999⟩, false⟩ = true
    ∧ (DataSummary.mk (some ⟨⟨1000⟩⟩) none none none none).can_service
        ⟨.GetNewTransactionsWithProof ⟨26000⟩, false⟩ = false := by
  refine ⟨fun ds uc V => ⟨?_, rfl, rfl, ?_⟩, by decide, by decide⟩
  · simp only [DataSummary.can_service, DataSummary.can_service_optimistic_request]
    cases hli : ds.synced_ledger_info <;> simp [hli]
  · intro hnone
    simp [DataSummary.can_service, DataSummary.can_service_optimistic_request, hnone]

/-- C4 witness: the absent-frontier branch instantiated at the empty summary. -/
theorem c4_optimistic_fetch_amended_witness :
    (DataSummary.mk none none none none none).synced_ledger_info = none ∧
    (DataSummary.mk none none none none none).can_service
        ⟨.GetNewTransactionsWithProof ⟨0⟩, false⟩ = false :=
  ⟨rfl, (c4_optimistic_fetch_amended.1 (DataSummary.mk none none none none none) false 0).2.2.2 rfl⟩

/-- C5: serviceability is a total boolean predicate — a request whose range
fails `Range` construction yields `false` for every ranged request kind, and
since `ProtocolMetadata::can_service` is constantly `true`,
`StorageServerSummary::can_service` coincides with
`DataSummary::can_service` on every request. -/
theorem c5_serviceability_total :
    (∀ (s : StorageServerSummary) (req : StorageServiceRequest),
      s.can_service req = s.data_summary.can_service req
      ∧ s.protocol_metadata.can_service req = true)
    ∧ (∀ (ds : DataSummary) (uc : Bool) (s e pv : Nat) (er : Error),
      CompleteDataRange.new s e = .error er →
        ds.can_service ⟨.GetEpochEndingLedgerInfos ⟨s, e⟩, uc⟩ = false
        ∧ ds.can_service ⟨.GetTransactionOutputsWithProof ⟨pv, s, e⟩, uc⟩ = false
        ∧ ds.can_service ⟨.GetTransactionsWithProof ⟨pv, s, e⟩, uc⟩ = false
        ∧ ds.can_service ⟨.GetTransactionsOrOutputsWithProof ⟨pv, s, e⟩, uc⟩ = false) := by
  refine ⟨fun s req => ⟨?_, rfl⟩, fun ds uc s e pv er hnew => ?_⟩
  · simp [StorageServerSummary.can_service, ProtocolMetadata.can_service]
  · refine ⟨?_, ?_, ?_, ?_⟩ <;> simp [DataSummary.can_service, hnew]

/-- C1 counterexample: a payload embedding the range `[0, u64::MAX]` (built
with the public constructor `from_genesis`) serializes and compresses fine,
but `get_data_response` fails, because bcs deserialization re-validates the
range invariant — so the round trip does not hold for every payload. -/
theorem c1_round_trip_counterexample :
    StorageServiceResponse.new
        (.StorageServerSummary ⟨⟨1, 2, 3, 4⟩,
          ⟨none, none, none, some (CompleteDataRange.from_genesis U64MAX), none⟩⟩) true =
      .ok (.CompressedResponse ("storage_server_summary" ++ COMPRESSION_SUFFIX_LABEL)
        [6, 1, 2, 3, 4, 0, 0, 0, 1, 0, U64MAX, 0])
    ∧ (StorageServiceResponse.CompressedResponse
        ("storage_server_summary" ++ COMPRESSION_SUFFIX_LABEL)
        [6, 1, 2, 3, 4, 0, 0, 0, 1, 0, U64MAX, 0]).get_data_response =
      .error (.UnexpectedErrorEncountered "bcs deserialization failure") := by
  constructor
  · rfl
  · rfl

/-- C1 (amended): whenever `StorageServiceResponse::new(v, c)` returns
`Ok(envelope)` and every `CompleteDataRange` embedded in `v` satisfies the
range invariant, `get_data_response` returns `Ok(v)`; for `c = false` the
round trip holds for every payload unconditionally.  `get_data_response` is a
pure function of the envelope, so repeated calls agree by construction. -/
theorem c1_response_round_trip :
    (∀ (v : DataResponse) (c : Bool) (env : StorageServiceResponse),
      v.ranges_valid = true → StorageServiceResponse.new v c = .ok env →
        env.get_data_response = .ok v)
    ∧ (∀ (v : DataResponse) (env : StorageServiceResponse),
      StorageServiceResponse.new v false = .ok env → env.get_data_response = .ok v) := by
  have hraw : ∀ (v : DataResponse) (env : StorageServiceResponse),
      StorageServiceResponse.new v false = .ok env → env.get_data_response = .ok v := by
    intro v env hnew
    simp only [StorageServiceResponse.new, Bool.false_eq_true, if_false,
      Except.ok.injEq] at hnew
    rw [← hnew]
    rfl
  refine ⟨fun v c env hv hnew => ?_, hraw⟩
  cases c with
  | false => exact hraw v env hnew
  | true =>
    simp only [StorageServiceResponse.new, if_true] at hnew
    by_cases hlen : (bcs_to_bytes v).length ≤ MAX_APPLICATION_MESSAGE_SIZE
    · rw [show aptos_compression_compress (bcs_to_bytes v) = .ok (bcs_to_bytes v) from by
        simp [aptos_compression_compress, hlen]] at hnew
      simp only [Except.ok.injEq] at hnew
      rw [← hnew]
      simp only [StorageServiceResponse.get_data_response]
      rw [show aptos_compression_decompress (bcs_to_bytes v) = .ok (bcs_to_bytes v) from by
        simp [aptos_compression_decompress, hlen]]
      exact bcs_roundtrip v hv
    · rw [show aptos_compression_compress (bcs_to_bytes v) =
          .error (.UnexpectedErrorEncountered "compression failure") from by
        simp [aptos_compression_compress, hlen]] at hnew
      exact absurd hnew (by simp)

/-- C1 witness: a concrete compressed round trip. -/
theorem c1_response_round_trip_witness :
    (DataResponse.NumberOfStatesAtVersion 3).ranges_valid = true ∧
    StorageServiceResponse.new (.NumberOfStatesAtVersion 3) true =
      .ok (.CompressedResponse ("number_of_states_at_version" ++ COMPRESSION_SUFFIX_LABEL)
        [3, 3]) ∧
    (StorageServiceResponse.CompressedResponse
        ("number_of_states_at_version" ++ COMPRESSION_SUFFIX_LABEL) [3, 3]).get_data_response =
      .ok (.NumberOfStatesAtVersion 3) :=
  ⟨rfl, rfl, c1_response_round_trip.1 (.NumberOfStatesAtVersion 3) true
    (.CompressedResponse ("number_of_states_at_version" ++ COMPRESSION_SUFFIX_LABEL) [3, 3])
    rfl rfl⟩

/-- C10: uncompressed construction has no error path — `new(p, false)` is
always `Ok(RawResponse(p))` — and whenever `new(p, c)` succeeds, the
envelope's `is_compressed()` reports exactly the flag `c` passed at
construction. -/
theorem c10_new_uncompressed_and_flag :
    (∀ p : DataResponse, StorageServiceResponse.new p false = .ok (.RawResponse p))
    ∧ (∀ (p : DataResponse) (c : Bool) (env : StorageServiceResponse),
      StorageServiceResponse.new p c = .ok env → env.is_compressed = c) := by
  refine ⟨fun p => rfl, fun p c env hnew => ?_⟩
  cases c with
  | false =>
    simp only [StorageServiceResponse.new, Bool.false_eq_true, if_false,
      Except.ok.injEq] at hnew
    rw [← hnew]
    rfl
  | true =>
    simp only [StorageServiceResponse.new, if_true] at hnew
    cases hc : aptos_compression_compress (bcs_to_bytes p) with
    | error e => rw [hc] at hnew; exact absurd hnew (by simp)
    | ok bytes =>
      rw [hc] at hnew
      simp only [Except.ok.injEq] at hnew
      rw [← hnew]
      rfl

/-- C10 witness: a concrete compressed construction whose envelope reports
`is_compressed = true`. -/
theorem c10_new_uncompressed_and_flag_witness :
    StorageServiceResponse.new (.NumberOfStatesAtVersion 3) true =
      .ok (.CompressedResponse ("number_of_states_at_version" ++ COMPRESSION_SUFFIX_LABEL)
        [3, 3]) ∧
    (StorageServiceResponse.CompressedResponse
        ("number_of_states_at_version" ++ COMPRESSION_SUFFIX_LABEL) [3, 3]).is_compressed
      = true :=
  ⟨rfl, c10_new_uncompressed_and_flag.2 (.NumberOfStatesAtVersion 3) true
    (.CompressedResponse ("number_of_states_at_version" ++ COMPRESSION_SUFFIX_LABEL) [3, 3])
    rfl⟩

/-- C5 witness: the degenerate request range `[5, 3]` instantiated on the
empty data summary. -/
theorem c5_serviceability_total_witness :
    CompleteDataRange.new 5 3 = .error .DegenerateRangeError ∧
    (DataSummary.mk none none none none none).can_service
        ⟨.GetTransactionsWithProof ⟨0, 5, 3⟩, false⟩ = false :=
  ⟨by rw [new_unfold]; norm_num,
    (c5_serviceability_total.2 (DataSummary.mk none none none none none) false 5 3 0
      .DegenerateRangeError (by rw [new_unfold]; norm_num)).2.2.1⟩

lemma tf_spec_state_chunk (response : StorageServiceResponse) (p : DataResponse)
    (h : response.get_data_response = .ok p) :
    (∀ inner, StateValueChunkWithProof.try_from response = .ok inner ↔
      p = .StateValueChunkWithProof inner)
    ∧ ((∀ inner, p ≠ DataResponse.StateValueChunkWithProof inner) →
      StateValueChunkWithProof.try_from response = .error (.UnexpectedResponseError
        ("expected state_value_chunk_with_proof, found " ++ p.get_label))) := by
  constructor
  · intro inner
    simp only [StateValueChunkWithProof.try_from, h]
    cases p <;> simp
  · intro hne
    simp only [StateValueChunkWithProof.try_from, h]

lemma tf_spec_epoch (response : StorageServiceResponse) (p : DataResponse)
    (h : response.get_data_response = .ok p) :
    (∀ inner, EpochChangeProof.try_from response = .ok inner ↔
      p = .EpochEndingLedgerInfos inner)
    ∧ ((∀ inner, p ≠ DataResponse.EpochEndingLedgerInfos inner) →
      EpochChangeProof.try_from response = .error (.UnexpectedResponseError
        ("expected epoch_ending_ledger_infos, found " ++ p.get_label))) := by
  constructor
  · intro inner
    simp only [EpochChangeProof.try_from, h]
    cases p <;> simp
  · intro hne
    simp only [EpochChangeProof.try_from, h]

lemma tf_spec_new_outputs (response : StorageServiceResponse) (p : DataResponse)
    (h : response.get_data_response = .ok p) :
    (∀ inner, try_from_new_transaction_outputs response = .ok inner ↔
      p = .NewTransactionOutputsWithProof inner)
    ∧ ((∀ inner, p ≠ DataResponse.NewTransactionOutputsWithProof inner) →
      try_from_new_transaction_outputs response = .error (.UnexpectedResponseError
        ("expected new_transaction_outputs_with_proof, found " ++ p.get_label))) := by
  constructor
  · intro inner
    simp only [try_from_new_transaction_outputs, h]
    cases p <;> simp
  · intro hne
    simp only [try_from_new_transaction_outputs, h]

lemma tf_spec_new_txns (response : StorageServiceResponse) (p : DataResponse)
    (h : response.get_data_response = .ok p) :
    (∀ inner, try_from_new_transactions response = .ok inner ↔
      p = .NewTransactionsWithProof inner)
    ∧ ((∀ inner, p ≠ DataResponse.NewTransactionsWithProof inner) →
      try_from_new_transactions response = .error (.UnexpectedResponseError
        ("expected new_transactions_with_proof, found " ++ p.get_label))) := by
  constructor
  · intro inner
    simp only [try_from_new_transactions, h]
    cases p <;> simp
  · intro hne
    simp only [try_from_new_transactions, h]

lemma tf_spec_num_states (response : StorageServiceResponse) (p : DataResponse)
    (h : response.get_data_response = .ok p) :
    (∀ inner, try_from_number_of_states response = .ok inner ↔
      p = .NumberOfStatesAtVersion inner)
    ∧ ((∀ inner, p ≠ DataResponse.NumberOfStatesAtVersion inner) →
      try_from_number_of_states response = .error (.UnexpectedResponseError
        ("expected number_of_states_at_version, found " ++ p.get_label))) := by
  constructor
  · intro inner
    simp only [try_from_number_of_states, h]
    cases p <;> simp
  · intro hne
    simp only [try_from_number_of_states, h]

lemma tf_spec_protocol_version (response : StorageServiceResponse) (p : DataResponse)
    (h : response.get_data_response = .ok p) :
    (∀ inner, ServerProtocolVersion.try_from response = .ok inner ↔
      p = .ServerProtocolVersion inner)
    ∧ ((∀ inner, p ≠ DataResponse.ServerProtocolVersion inner) →
      ServerProtocolVersion.try_from response = .error (.UnexpectedResponseError
        ("expected server_protocol_version, found " ++ p.get_label))) := by
  constructor
  · intro inner
    simp only [ServerProtocolVersion.try_from, h]
    cases p <;> simp
  · intro hne
    simp only [ServerProtocolVersion.try_from, h]

lemma tf_spec_server_summary (response : StorageServiceResponse) (p : DataResponse)
    (h : response.get_data_response = .ok p) :
    (∀ inner, StorageServerSummary.try_from response = .ok inner ↔
      p = .StorageServerSummary inner)
    ∧ ((∀ inner, p ≠ DataResponse.StorageServerSummary inner) →
      StorageServerSummary.try_from response = .error (.UnexpectedResponseError
        ("expected storage_server_summary, found " ++ p.get_label))) := by
  constructor
  · intro inner
    simp only [StorageServerSummary.try_from, h]
    cases p <;> simp
  · intro hne
    simp only [StorageServerSummary.try_from, h]

lemma tf_spec_outputs (response : StorageServiceResponse) (p : DataResponse)
    (h : response.get_data_response = .ok p) :
    (∀ inner, TransactionOutputListWithProof.try_from response = .ok inner ↔
      p = .TransactionOutputsWithProof inner)
    ∧ ((∀ inner, p ≠ DataResponse.TransactionOutputsWithProof inner) →
      TransactionOutputListWithProof.try_from response = .error (.UnexpectedResponseError
        ("expected transaction_outputs_with_proof, found " ++ p.get_label))) := by
  constructor
  · intro inner
    simp only [TransactionOutputListWithProof.try_from, h]
    cases p <;> simp
  · intro hne
    simp only [TransactionOutputListWithProof.try_from, h]

lemma tf_spec_txns (response : StorageServiceResponse) (p : DataResponse)
    (h : response.get_data_response = .ok p) :
    (∀ inner, TransactionListWithProof.try_from response = .ok inner ↔
      p = .TransactionsWithProof inner)
    ∧ ((∀ inner, p ≠ DataResponse.TransactionsWithProof inner) →
      TransactionListWithProof.try_from response = .error (.UnexpectedResponseError
        ("expected transactions_with_proof, found " ++ p.get_label))) := by
  constructor
  · intro inner
    simp only [TransactionListWithProof.try_from, h]
    cases p <;> simp
  · intro hne
    simp only [TransactionListWithProof.try_from, h]

lemma tf_spec_new_txns_or_outputs (response : StorageServiceResponse) (p : DataResponse)
    (h : response.get_data_response = .ok p) :
    (∀ inner, try_from_new_transactions_or_outputs response = .ok inner ↔
      p = .NewTransactionsOrOutputsWithProof inner)
    ∧ ((∀ inner, p ≠ DataResponse.NewTransactionsOrOutputsWithProof inner) →
      try_from_new_transactions_or_outputs response = .error (.UnexpectedResponseError
        ("expected new_transactions_or_outputs_with_proof, found " ++ p.get_label))) := by
  constructor
  · intro inner
    simp only [try_from_new_transactions_or_outputs, h]
    cases p <;> simp
  · intro hne
    simp only [try_from_new_transactions_or_outputs, h]

lemma tf_spec_txns_or_outputs (response : StorageServiceResponse) (p : DataResponse)
    (h : response.get_data_response = .ok p) :
    (∀ inner, try_from_transactions_or_outputs response = .ok inner ↔
      p = .TransactionsOrOutputsWithProof inner)
    ∧ ((∀ inner, p ≠ DataResponse.TransactionsOrOutputsWithProof inner) →
      try_from_transactions_or_outputs response = .error (.UnexpectedResponseError
        ("expected transactions_or_outputs_with_proof, found " ++ p.get_label))) := by
  constructor
  · intro inner
    simp only [try_from_transactions_or_outputs, h]
    cases p <;> simp
  · intro hne
    simp only [try_from_transactions_or_outputs, h]

/-- C2: for every envelope whose payload is `p`, each per-variant typed
extraction returns `Ok(inner)` iff `p` is the expected variant carrying
`inner`, and otherwise fails with an `UnexpectedResponseError` whose message
names the expected label and the actual payload's label — never a wrong-typed
success.  In particular, extracting `EpochChangeProof` from an envelope
holding `TransactionsWithProof(x)` fails naming
`epoch_ending_ledger_infos` as expected and `transactions_with_proof` as
actual. -/
theorem c2_typed_extraction (response : StorageServiceResponse) (p : DataResponse)
    (h : response.get_data_response = .ok p) :
    ((∀ inner, StateValueChunkWithProof.try_from response = .ok inner ↔
        p = .StateValueChunkWithProof inner)
      ∧ ((∀ inner, p ≠ DataResponse.StateValueChunkWithProof inner) →
        StateValueChunkWithProof.try_from response = .error (.UnexpectedResponseError
          ("expected state_value_chunk_with_proof, found " ++ p.get_label))))
    ∧ ((∀ inner, EpochChangeProof.try_from response = .ok inner ↔
        p = .EpochEndingLedgerInfos inner)
      ∧ ((∀ inner, p ≠ DataResponse.EpochEndingLedgerInfos inner) →
        EpochChangeProof.try_from response = .error (.UnexpectedResponseError
          ("expected epoch_ending_ledger_infos, found " ++ p.get_label))))
    ∧ ((∀ inner, try_from_new_transaction_outputs response = .ok inner ↔
        p = .NewTransactionOutputsWithProof inner)
      ∧ ((∀ inner, p ≠ DataResponse.NewTransactionOutputsWithProof inner) →
        try_from_new_transaction_outputs response = .error (.UnexpectedResponseError
          ("expected new_transaction_outputs_with_proof, found " ++ p.get_label))))
    ∧ ((∀ inner, try_from_new_transactions response = .ok inner ↔
        p = .NewTransactionsWithProof inner)
      ∧ ((∀ inner, p ≠ DataResponse.NewTransactionsWithProof inner) →
        try_from_new_transactions response = .error (.UnexpectedResponseError
          ("expected new_transactions_with_proof, found " ++ p.get_label))))
    ∧ ((∀ inner, try_from_number_of_states response = .ok inner ↔
        p = .NumberOfStatesAtVersion inner)
      ∧ ((∀ inner, p ≠ DataResponse.NumberOfStatesAtVersion inner) →
        try_from_number_of_states response = .error (.UnexpectedResponseError
          ("expected number_of_states_at_version, found " ++ p.get_label))))
    ∧ ((∀ inner, ServerProtocolVersion.try_from response = .ok inner ↔
        p = .ServerProtocolVersion inner)
      ∧ ((∀ inner, p ≠ DataResponse.ServerProtocolVersion inner) →
        ServerProtocolVersion.try_from response = .error (.UnexpectedResponseError
          ("expected server_protocol_version, found " ++ p.get_label))))
    ∧ ((∀ inner, StorageServerSummary.try_from response = .ok inner ↔
        p = .StorageServerSummary inner)
      ∧ ((∀ inner, p ≠ DataResponse.StorageServerSummary inner) →
        StorageServerSummary.try_from response = .error (.UnexpectedResponseError
          ("expected storage_server_summary, found " ++ p.get_label))))
    ∧ ((∀ inner, TransactionOutputListWithProof.try_from response = .ok inner ↔
        p = .TransactionOutputsWithProof inner)
      ∧ ((∀ inner, p ≠ DataResponse.TransactionOutputsWithProof inner) →
        TransactionOutputListWithProof.try_from response = .error (.UnexpectedResponseError
          ("expected transaction_outputs_with_proof, found " ++ p.get_label))))
    ∧ ((∀ inner, TransactionListWithProof.try_from response = .ok inner ↔
        p = .TransactionsWithProof inner)
      ∧ ((∀ inner, p ≠ DataResponse.TransactionsWithProof inner) →
        TransactionListWithProof.try_from response = .error (.UnexpectedResponseError
          ("expected transactions_with_proof, found " ++ p.get_label))))
    ∧ ((∀ inner, try_from_new_transactions_or_outputs response = .ok inner ↔
        p = .NewTransactionsOrOutputsWithProof inner)
      ∧ ((∀ inner, p ≠ DataResponse.NewTransactionsOrOutputsWithProof inner) →
        try_from_new_transactions_or_outputs response = .error (.UnexpectedResponseError
          ("expected new_transactions_or_outputs_with_proof, found " ++ p.get_label))))
    ∧ ((∀ inner, try_from_transactions_or_outputs response = .ok inner ↔
        p = .TransactionsOrOutputsWithProof inner)
      ∧ ((∀ inner, p ≠ DataResponse.TransactionsOrOutputsWithProof inner) →
        try_from_transactions_or_outputs response = .error (.UnexpectedResponseError
          ("expected transactions_or_outputs_with_proof, found " ++ p.get_label))))
    ∧ (∀ x : TransactionListWithProof,
        EpochChangeProof.try_from (.RawResponse (.TransactionsWithProof x)) =
          .error (.UnexpectedResponseError
            "expected epoch_ending_ledger_infos, found transactions_with_proof")) :=
  ⟨tf_spec_state_chunk response p h, tf_spec_epoch response p h,
    tf_spec_new_outputs response p h, tf_spec_new_txns response p h,
    tf_spec_num_states response p h, tf_spec_protocol_version response p h,
    tf_spec_server_summary response p h, tf_spec_outputs response p h,
    tf_spec_txns response p h, tf_spec_new_txns_or_outputs response p h,
    tf_spec_txns_or_outputs response p h, fun _ => rfl⟩

/-- C2 witness: the mismatch branch at a concrete raw envelope. -/
theorem c2_typed_extraction_witness :
    (StorageServiceResponse.RawResponse (.NumberOfStatesAtVersion 7)).get_data_response =
      .ok (.NumberOfStatesAtVersion 7) ∧
    EpochChangeProof.try_from (.RawResponse (.NumberOfStatesAtVersion 7)) =
      .error (.UnexpectedResponseError ("expected epoch_ending_ledger_infos, found " ++
        (DataResponse.NumberOfStatesAtVersion 7).get_label)) :=
  ⟨rfl, (c2_typed_extraction (.RawResponse (.NumberOfStatesAtVersion 7))
      (.NumberOfStatesAtVersion 7) rfl).2.1.2 (fun inner hinner => by cases hinner)⟩
